import Mathlib

/-!
Verification of the rampart-verify semantic verification sidecar.

This file gives a shallow embedding, in Lean 4, of the core pipeline of the
rampart-verify service: secret redaction (src/redact.py), prompt construction
(src/prompt.py), the decision parser, token-bucket rate limiter and request
orchestration (src/server.py), and the provider retry logic (src/providers.py).
Python strings are modelled as `List Char` / `String`; floating-point time and
token counts are idealised as rationals; fallible calls are modelled with
`Except`; the regular-expression substitutions of the redactor are modelled by
an executable backtracking matcher specialised to the pattern forms that occur
in `SECRET_PATTERNS`.
-/

set_option maxRecDepth 4096

namespace Rampart

/-! ## Python string primitives -/

/-- Python whitespace characters (`str.strip`, `\s`) restricted to ASCII. -/
def isPySpace (c : Char) : Bool :=
  c = ' ' || c = '\t' || c = '\n' || c = '\r' || c = '\x0b' || c = '\x0c'

/-- `str.strip()` on a character list: drop leading and trailing whitespace. -/
def stripL (s : List Char) : List Char :=
  ((s.dropWhile isPySpace).reverse.dropWhile isPySpace).reverse

/-- `str.strip()` on a `String`. -/
def pyStrip (s : String) : String :=
  String.mk (stripL s.data)

/-- `str.upper()` restricted to ASCII case mapping. -/
def pyUpper (s : String) : String :=
  String.mk (s.data.map Char.toUpper)

/-- Split a character list at every occurrence of the character `sep`
(Python `str.split(sep)` for a one-character separator). -/
def splitOnChar (sep : Char) : List Char → List (List Char)
  | [] => [[]]
  | c :: rest =>
    let r := splitOnChar sep rest
    if c = sep then [] :: r
    else
      match r with
      | [] => [[c]]
      | piece :: pieces => (c :: piece) :: pieces

/-- Does `pre` occur as a prefix of `s`? -/
def isPrefixL : List Char → List Char → Bool
  | [], _ => true
  | _ :: _, [] => false
  | p :: ps, c :: cs => p = c && isPrefixL ps cs

/-- Does `needle` occur as a contiguous substring of `hay`
(Python `needle in hay`)? -/
def containsL (needle : List Char) : List Char → Bool
  | [] => isPrefixL needle []
  | c :: cs => isPrefixL needle (c :: cs) || containsL needle cs

/-- Python `needle in hay` on `String`s. -/
def strContains (hay needle : String) : Bool :=
  containsL needle.data hay.data

/-- Everything after the first occurrence of `sep`, i.e. `s.split(sep, 1)[1]`
for a one-character separator; `none` when `sep` does not occur. -/
def afterFirst (sep : Char) : List Char → Option (List Char)
  | [] => none
  | c :: cs => if c = sep then some cs else afterFirst sep cs

/-! ## Regular-expression substitution engine

An executable backtracking matcher specialised to the pattern forms occurring
in `SECRET_PATTERNS` (src/redact.py): literals, ordered alternations of
literals, greedy bounded repetitions of character classes, single-character
negative lookbehind/lookahead, and capturing groups referenced in replacement
templates.  Matching follows Python `re` semantics: leftmost match wins, and
within a position alternatives are tried in order and repetitions backtrack
from greediest down. -/

/-- One token of a pattern. -/
inductive RTok where
  | lit (cs : List Char) (ci : Bool)
  | alts (ss : List (List Char)) (ci : Bool)
  | cls (p : Char → Bool) (lo : Nat) (hi : Option Nat)
  | nlb (p : Char → Bool)
  | nla (p : Char → Bool)
  | gopen (k : Nat)
  | gclose (k : Nat)

/-- One piece of a replacement template: a literal or a group reference. -/
inductive RPiece where
  | lit (cs : List Char)
  | grp (k : Nat)

/-- Character comparison, optionally case-insensitive (ASCII). -/
def charEq (ci : Bool) (a b : Char) : Bool :=
  if ci then a.toLower = b.toLower else a = b

/-- Consume a literal from the front of the input; return the remaining input
and the last consumed character. -/
def consumeLit (ci : Bool) : List Char → List Char → Option Char → Option (List Char × Option Char)
  | [], s, last => some (s, last)
  | _ :: _, [], _ => none
  | c :: cs, x :: s, _ =>
    if charEq ci c x then consumeLit ci cs s (some x) else none

/-- Length of the maximal leading run of characters satisfying `p`, capped. -/
def runLen (p : Char → Bool) (cap : Option Nat) : List Char → Nat
  | [] => 0
  | c :: s =>
    if cap = some 0 then 0
    else if p c then runLen p (cap.map (· - 1)) s + 1
    else 0

/-- Backtracking matcher for a token sequence.  `prev` is the character just
before the current position (for lookbehind), `stk` the stack of open groups
(with the input at their opening), `caps` the captures recorded so far.
Returns the input remaining after the match together with the captures. -/
def matchSeq : List RTok → Option Char → List Char → List (Nat × List Char) →
    List (Nat × List Char) → Option (List Char × List (Nat × List Char))
  | [], _, s, _, caps => some (s, caps)
  | .lit cs ci :: rest, prev, s, stk, caps =>
    match consumeLit ci cs s prev with
    | some (s', prev') => matchSeq rest prev' s' stk caps
    | none => none
  | .alts ss ci :: rest, prev, s, stk, caps =>
    ss.findSome? fun alt =>
      match consumeLit ci alt s prev with
      | some (s', prev') => matchSeq rest prev' s' stk caps
      | none => none
  | .cls p lo hi :: rest, prev, s, stk, caps =>
    let m := runLen p hi s
    -- candidate consumption lengths, greediest first, down to `lo`
    if m < lo then none
    else
      (List.range (m - lo + 1)).findSome? fun i =>
        let n := m - i
        let prev' := match (s.take n).getLast? with
          | some c => some c
          | none => prev
        matchSeq rest prev' (s.drop n) stk caps
  | .nlb p :: rest, prev, s, stk, caps =>
    match prev with
    | some c => if p c then none else matchSeq rest prev s stk caps
    | none => matchSeq rest prev s stk caps
  | .nla p :: rest, prev, s, stk, caps =>
    match s with
    | c :: _ => if p c then none else matchSeq rest prev s stk caps
    | [] => matchSeq rest prev s stk caps
  | .gopen k :: rest, prev, s, stk, caps =>
    matchSeq rest prev s ((k, s) :: stk) caps
  | .gclose k :: rest, prev, s, stk, caps =>
    match stk with
    | (k', start) :: stk' =>
      if k' = k then
        matchSeq rest prev s stk' (caps ++ [(k, start.take (start.length - s.length))])
      else none
    | [] => none

/-- Instantiate a replacement template with the recorded captures. -/
def applyTmpl (caps : List (Nat × List Char)) : List RPiece → List Char
  | [] => []
  | .lit cs :: rest => cs ++ applyTmpl caps rest
  | .grp k :: rest =>
    (match caps.lookup k with
     | some cs => cs
     | none => []) ++ applyTmpl caps rest

/-- Scan of `re.sub`: at each position try the pattern; on a match emit the
instantiated template and continue after the matched text (which, for every
pattern in `SECRET_PATTERNS`, is nonempty); otherwise emit the character and
advance.  Lookbehind inspects the original text, as in Python. -/
def subScan (pat : List RTok) (tmpl : List RPiece) : Nat → Option Char → List Char → List Char
  | 0, _, s => s
  | _ + 1, _, [] => []
  | fuel + 1, prev, c :: rest =>
    match matchSeq pat prev (c :: rest) [] [] with
    | some (rem, caps) =>
      let consumed := (c :: rest).length - rem.length
      if consumed = 0 then c :: subScan pat tmpl fuel (some c) rest
      else
        applyTmpl caps tmpl ++
          subScan pat tmpl fuel (((c :: rest).take consumed).getLast?) rem
    | none => c :: subScan pat tmpl fuel (some c) rest

/-- `pattern.sub(replacement, s)` for one compiled rule. -/
def subst (pat : List RTok) (tmpl : List RPiece) (s : List Char) : List Char :=
  subScan pat tmpl (s.length + 1) none s

/-! ## Secret patterns — `SECRET_PATTERNS`, src/redact.py lines 12–47 -/

/-- `[0-9A-Z]`. -/
def isUpperDigit (c : Char) : Bool := c.isUpper || c.isDigit

/-- `[a-zA-Z0-9_-]`. -/
def isKeyChar (c : Char) : Bool := c.isAlphanum || c = '_' || c = '-'

/-- `[a-zA-Z0-9_]`. -/
def isWordChar (c : Char) : Bool := c.isAlphanum || c = '_'

/-- `[0-9a-f]`. -/
def isLowerHex (c : Char) : Bool := c.isDigit || ('a' ≤ c && c ≤ 'f')

/-- `[A-Za-z0-9+/=]`. -/
def isB64Char (c : Char) : Bool := c.isAlphanum || c = '+' || c = '/' || c = '='

/-- `["\']`. -/
def isQuoteChar (c : Char) : Bool := c = '"' || c = '\x27'

/-- `\S`. -/
def isNonSpace (c : Char) : Bool := !isPySpace c

/-- The ordered redaction rules, each a compiled pattern and its replacement
template, in the exact order of `SECRET_PATTERNS`. -/
def SECRET_PATTERNS : List (List RTok × List RPiece) :=
  [ -- AKIA[0-9A-Z]{16}
    ([.lit "AKIA".data false, .cls isUpperDigit 16 (some 16)],
     [.lit "[REDACTED_AWS_KEY]".data]),
    -- (?i)(aws_secret_access_key|aws_session_token)[=:]\s*\S+  →  \1=[REDACTED]
    ([.gopen 1, .alts ["aws_secret_access_key".data, "aws_session_token".data] true,
      .gclose 1, .cls (fun c => c = '=' || c = ':') 1 (some 1),
      .cls isPySpace 0 none, .cls isNonSpace 1 none],
     [.grp 1, .lit "=[REDACTED]".data]),
    -- (?:sk|pk|rk)_(?:live|test)_[a-zA-Z0-9]{10,}
    ([.alts ["sk".data, "pk".data, "rk".data] false, .lit "_".data false,
      .alts ["live".data, "test".data] false, .lit "_".data false,
      .cls Char.isAlphanum 10 none],
     [.lit "[REDACTED_STRIPE_KEY]".data]),
    -- sk-ant-[a-zA-Z0-9_-]{20,}
    ([.lit "sk-ant-".data false, .cls isKeyChar 20 none],
     [.lit "[REDACTED_API_KEY]".data]),
    -- sk-proj-[a-zA-Z0-9_-]{20,}
    ([.lit "sk-proj-".data false, .cls isKeyChar 20 none],
     [.lit "[REDACTED_API_KEY]".data]),
    -- sk-[a-zA-Z0-9_-]{20,}
    ([.lit "sk-".data false, .cls isKeyChar 20 none],
     [.lit "[REDACTED_API_KEY]".data]),
    -- ghp_[a-zA-Z0-9]{36}
    ([.lit "ghp_".data false, .cls Char.isAlphanum 36 (some 36)],
     [.lit "[REDACTED_GH_TOKEN]".data]),
    -- gho_[a-zA-Z0-9]{36}
    ([.lit "gho_".data false, .cls Char.isAlphanum 36 (some 36)],
     [.lit "[REDACTED_GH_TOKEN]".data]),
    -- ghu_[a-zA-Z0-9]{36}
    ([.lit "ghu_".data false, .cls Char.isAlphanum 36 (some 36)],
     [.lit "[REDACTED_GH_TOKEN]".data]),
    -- ghs_[a-zA-Z0-9]{36}
    ([.lit "ghs_".data false, .cls Char.isAlphanum 36 (some 36)],
     [.lit "[REDACTED_GH_TOKEN]".data]),
    -- github_pat_[a-zA-Z0-9_]{22,}
    ([.lit "github_pat_".data false, .cls isWordChar 22 none],
     [.lit "[REDACTED_GH_TOKEN]".data]),
    -- (?i)(bearer\s+)\S+  →  \1[REDACTED]
    ([.gopen 1, .lit "bearer".data true, .cls isPySpace 1 none, .gclose 1,
      .cls isNonSpace 1 none],
     [.grp 1, .lit "[REDACTED]".data]),
    -- (?i)(authorization:\s*(?:bearer|basic|token)\s+)\S+  →  \1[REDACTED]
    ([.gopen 1, .lit "authorization:".data true, .cls isPySpace 0 none,
      .alts ["bearer".data, "basic".data, "token".data] true,
      .cls isPySpace 1 none, .gclose 1, .cls isNonSpace 1 none],
     [.grp 1, .lit "[REDACTED]".data]),
    -- (https?://)([^:]+):([^@]+)@  →  \1\2:[REDACTED]@
    ([.gopen 1, .lit "http".data false, .cls (fun c => c = 's') 0 (some 1),
      .lit "://".data false, .gclose 1,
      .gopen 2, .cls (fun c => c ≠ ':') 1 none, .gclose 2,
      .lit ":".data false,
      .gopen 3, .cls (fun c => c ≠ '@') 1 none, .gclose 3,
      .lit "@".data false],
     [.grp 1, .grp 2, .lit ":[REDACTED]@".data]),
    -- (?i)(api[_-]?key|api[_-]?secret|secret[_-]?key|access[_-]?token|
    --      auth[_-]?token|private[_-]?key|password|passwd|pwd)[=:]\s*\S+  →  \1=[REDACTED]
    ([.gopen 1,
      .alts ["api_key".data, "api-key".data, "apikey".data,
             "api_secret".data, "api-secret".data, "apisecret".data,
             "secret_key".data, "secret-key".data, "secretkey".data,
             "access_token".data, "access-token".data, "accesstoken".data,
             "auth_token".data, "auth-token".data, "authtoken".data,
             "private_key".data, "private-key".data, "privatekey".data,
             "password".data, "passwd".data, "pwd".data] true,
      .gclose 1, .cls (fun c => c = '=' || c = ':') 1 (some 1),
      .cls isPySpace 0 none, .cls isNonSpace 1 none],
     [.grp 1, .lit "=[REDACTED]".data]),
    -- (?<![a-zA-Z0-9])[0-9a-f]{40,}(?![a-zA-Z0-9])
    ([.nlb Char.isAlphanum, .cls isLowerHex 40 none, .nla Char.isAlphanum],
     [.lit "[REDACTED_HEX]".data]),
    -- (-H\s+["\'][^"\']*:\s*)[A-Za-z0-9+/=]{40,}  →  \1[REDACTED_B64]
    ([.gopen 1, .lit "-H".data false, .cls isPySpace 1 none,
      .cls isQuoteChar 1 (some 1), .cls (fun c => !isQuoteChar c) 0 none,
      .lit ":".data false, .cls isPySpace 0 none, .gclose 1,
      .cls isB64Char 40 none],
     [.grp 1, .lit "[REDACTED_B64]".data]) ]

/-- `redact_secrets` (src/redact.py): apply every rule in order, each rule's
output feeding the next; empty input returns unchanged. -/
def redact_secrets (text : String) : String :=
  if text = "" then text
  else String.mk (SECRET_PATTERNS.foldl (fun acc pr => subst pr.1 pr.2 acc) text.data)

/-! ## Parameter values and `redact_params` (src/redact.py lines 69–86) -/

/-- A Python value as it appears in `params`: a string, a nested mapping, or
any other value (modelled opaquely by its repr-relevant cases). -/
inductive PyValue where
  | str (s : String)
  | int (n : Int)
  | bool (b : Bool)
  | pynone
  | dict (entries : List (String × PyValue))

/-- Redaction of one nested (one-level) mapping value:
`redact_secrets(v) if isinstance(v, str) else v`. -/
def redactNested (v : PyValue) : PyValue :=
  match v with
  | .str s => .str (redact_secrets s)
  | v => v

/-- Redaction of one top-level value of `params`, following the three branches
of `redact_params`. -/
def redactValue (v : PyValue) : PyValue :=
  match v with
  | .str s => .str (redact_secrets s)
  | .dict d => .dict (d.map fun kv => (kv.1, redactNested kv.2))
  | v => v

/-- `redact_params` (src/redact.py): build a fresh mapping with every
top-level string value redacted, every string value of a one-level nested
mapping redacted, and every other value passed through. -/
def redact_params (params : List (String × PyValue)) : List (String × PyValue) :=
  params.map fun kv => (kv.1, redactValue kv.2)

/-! ## Decision parser — `parse_llm_response`, src/server.py lines 255–280 -/

/-- The fixed default reason used when a DENY line carries no colon. -/
def defaultDenyReason : String := "Action denied by security review"

/-- `line.split(":", 1)[1].strip() if ":" in line else "Action denied by
security review"` — the reason extracted from a DENY-carrying line. -/
def denyReason (line : String) : String :=
  match afterFirst ':' line.data with
  | some rest => String.mk (stripL rest)
  | none => defaultDenyReason

/-- The per-line decision signal of `parse_llm_response`: the body of the
loop over non-blank lines, returning `none` when the line carries no signal. -/
def parseLine (line : String) : Option (String × Option String) :=
  let upper := pyUpper line
  if upper = "ALLOW" then some ("allow", none)
  else if isPrefixL "DENY".data upper.data then some ("deny", some (denyReason line))
  else if strContains upper "ALLOW" && !strContains upper "DENY" then some ("allow", none)
  else if strContains upper "DENY" then some ("deny", some (denyReason line))
  else none

/-- Loop of `parse_llm_response`: scan stripped lines in order, skipping blank
lines, returning the first signal; fail open to `("allow", none)`. -/
def parseLines : List String → String × Option String
  | [] => ("allow", none)
  | l :: ls =>
    if l = "" then parseLines ls
    else
      match parseLine l with
      | some r => r
      | none => parseLines ls

/-- `parse_llm_response` (src/server.py): strip the response, split it on
newlines, strip each line, and scan for the first decision signal. -/
def parse_llm_response (response : String) : String × Option String :=
  parseLines ((splitOnChar '\n' (stripL response.data)).map (fun l => String.mk (stripL l)))

/-- Specification-side parser, transcribed from the claim wording: scan
non-blank lines in order and return on the first line carrying a signal, with
within-line priority exact-ALLOW > begins-with-DENY > contains-ALLOW-without-
DENY > contains-DENY; `(allow, none)` when no line yields a signal. -/
def parseSpec (response : String) : String × Option String :=
  let lines := ((splitOnChar '\n' (stripL response.data)).map
    (fun l => String.mk (stripL l))).filter (fun l => l ≠ "")
  match lines.findSome? parseLine with
  | some r => r
  | none => ("allow", none)

/-! ## Token-bucket rate limiter — `TokenBucketRateLimiter`, src/server.py
lines 67–88.  Float arithmetic is idealised over `ℚ`; `time.monotonic()` is
passed in explicitly as `now`. -/

structure TokenBucket where
  capacity : ℚ
  refill_per_second : ℚ
  tokens : ℚ
  last_refill : ℚ
  deriving Repr, DecidableEq

/-- `TokenBucketRateLimiter.__init__`: the bucket starts full. -/
def TokenBucket.init (capacity : ℚ) (refill_per_second : ℚ) (now : ℚ) : TokenBucket :=
  { capacity := capacity
    refill_per_second := refill_per_second
    tokens := capacity
    last_refill := now }

/-- Python `min(a, b)` (returns the first argument on ties). -/
def pymin (a b : ℚ) : ℚ := if b < a then b else a

/-- `TokenBucketRateLimiter.allow()` as a pure state transition: refill by
elapsed time times rate, capped at capacity; update the last-refill instant;
reject without consuming below 1.0 tokens, otherwise consume exactly 1.0. -/
def TokenBucket.allow (b : TokenBucket) (now : ℚ) : Bool × TokenBucket :=
  let elapsed := now - b.last_refill
  let tokens := pymin b.capacity (b.tokens + elapsed * b.refill_per_second)
  if tokens < 1 then
    (false, { b with tokens := tokens, last_refill := now })
  else
    (true, { b with tokens := tokens - 1, last_refill := now })

/-- Run a sequence of admission checks at the given instants, collecting the
results. -/
def TokenBucket.run (b : TokenBucket) : List ℚ → List Bool × TokenBucket
  | [] => ([], b)
  | t :: ts =>
    let (ok, b') := b.allow t
    let (oks, b'') := b'.run ts
    (ok :: oks, b'')

/-! ## Python value rendering (`str` / `repr`) for prompt construction -/

mutual

/-- Python `repr` of a value, as used by `str` on a dict (simplified: string
values are rendered between single quotes without escaping). -/
def pyRepr : PyValue → String
  | .str s => "\x27" ++ s ++ "\x27"
  | .int n => toString n
  | .bool b => if b then "True" else "False"
  | .pynone => "None"
  | .dict l => "\x7b" ++ pyReprEntries l ++ "\x7d"

/-- `repr` of the comma-separated entries of a dict. -/
def pyReprEntries : List (String × PyValue) → String
  | [] => ""
  | [kv] => "\x27" ++ kv.1 ++ "\x27: " ++ pyRepr kv.2
  | kv :: rest => "\x27" ++ kv.1 ++ "\x27: " ++ pyRepr kv.2 ++ ", " ++ pyReprEntries rest

end

/-- Python `str` of a value: identity on strings, `repr` otherwise. -/
def pyStr : PyValue → String
  | .str s => s
  | v => pyRepr v

/-- Python `dict.get(key, default)` on an association-list mapping. -/
def pyGet (params : List (String × PyValue)) (k : String) (default : PyValue) : PyValue :=
  match params.lookup k with
  | some v => v
  | none => default

/-! ## Prompt builder — `create_verification_prompt`, src/prompt.py lines 52–74 -/

/-- `create_verification_prompt` (src/prompt.py): extract the key field by
tool type (`exec` → command, `read`/`write` → path, `fetch`/`web_fetch` → url,
otherwise the tool name with `str(params)` truncated to 200 characters), then
prepend the review header and append the task context when it is truthy. -/
def create_verification_prompt (tool : String) (params : List (String × PyValue))
    (task_context : Option String) : String :=
  let info :=
    if tool = "exec" then
      "Shell command: " ++ pyStr (pyGet params "command" (pyGet params "command_b64" (.str "unknown")))
    else if tool = "read" || tool = "write" then
      "File " ++ tool ++ ": " ++ pyStr (pyGet params "path" (pyGet params "file_path" (.str "unknown")))
    else if tool = "fetch" || tool = "web_fetch" then
      "HTTP request: " ++ pyStr (pyGet params "url" (pyGet params "targetUrl" (.str "unknown")))
    else
      "Tool \x27" ++ tool ++ "\x27: " ++ String.mk ((pyRepr (.dict params)).data.take 200)
  let prompt := "COMMAND TO REVIEW:\n" ++ info
  match task_context with
  | some c => if c ≠ "" then prompt ++ "\n\nTASK CONTEXT: " ++ c else prompt
  | none => prompt

/-! ## Rate limit configuration — `_parse_rate_limit`, src/server.py lines 56–64 -/

/-- Accumulate the decimal value of a digit run that may contain single
underscores between digits (Python `int` literal-style separators). -/
def digitsCore : List Char → Nat → Option Nat
  | [], acc => some acc
  | '_' :: c :: rest, acc =>
    if c.isDigit then digitsCore rest (acc * 10 + (c.toNat - 48)) else none
  | c :: rest, acc =>
    if c = '_' then none
    else if c.isDigit then digitsCore rest (acc * 10 + (c.toNat - 48)) else none

/-- Digit run with separators; must begin with a digit. -/
def digitsVal : List Char → Option Nat
  | [] => none
  | c :: rest => if c.isDigit then digitsCore rest (c.toNat - 48) else none

/-- Python `int(raw)` on a string: strip whitespace, optional sign, decimal
digits with optional single underscores between digits; `none` models the
`ValueError` on any other input. -/
def pyIntParse (s : String) : Option Int :=
  match stripL s.data with
  | '+' :: rest => (digitsVal rest).map Int.ofNat
  | '-' :: rest => (digitsVal rest).map (fun n => -(Int.ofNat n))
  | rest => (digitsVal rest).map Int.ofNat

/-- `_parse_rate_limit` (src/server.py): parse `VERIFY_RATE_LIMIT` from the
environment (modelled as an optional string, `none` when unset) with default
"60"; a parsed value is kept only when positive; a parse failure falls back to
60. -/
def parse_rate_limit (env : Option String) : Int :=
  let raw := env.getD "60"
  match pyIntParse raw with
  | some value => if value > 0 then value else 60
  | none => 60

/-! ## Provider retry logic — src/providers.py -/

/-- Retry configuration (src/providers.py lines 16–17). -/
def MAX_RETRIES : Nat := 2

/-- Base retry delay in seconds. -/
def RETRY_DELAY : ℚ := 1

/-- An error surfaced by one backend call: an HTTP status error
(`httpx.HTTPStatusError`), a timeout (`httpx.TimeoutException`), or any other
transport/protocol error. -/
inductive CallErr where
  | http (status : Nat)
  | timeout
  | other
  deriving DecidableEq

/-- Trace of one `generate` call: final outcome, the sleep delays performed
between attempts, and the number of backend calls issued. -/
structure CallTrace where
  result : Except CallErr String
  delays : List ℚ
  calls : Nat

/-- Loop body of `LLMProvider._retry_generate` (src/providers.py lines
25–42): each attempt calls the backend; a 429 status with attempts remaining
sleeps `RETRY_DELAY * (attempt + 1)` and retries; any other status error, a
timeout, or any other error surfaces immediately. -/
def retryAux (fn : Nat → Except CallErr String) : Nat → Nat → CallTrace
  | _, 0 => ⟨.error .other, [], 0⟩
  | attempt, fuel + 1 =>
    match fn attempt with
    | .ok t => ⟨.ok t, [], 1⟩
    | .error (.http code) =>
      if code = 429 && attempt < MAX_RETRIES then
        let r := retryAux fn (attempt + 1) fuel
        ⟨r.result, RETRY_DELAY * ((attempt : ℚ) + 1) :: r.delays, r.calls + 1⟩
      else ⟨.error (.http code), [], 1⟩
    | .error e => ⟨.error e, [], 1⟩

/-- `LLMProvider._retry_generate`, entered at attempt 0 with
`MAX_RETRIES + 1` total attempts available. -/
def retry_generate (fn : Nat → Except CallErr String) : CallTrace :=
  retryAux fn 0 (MAX_RETRIES + 1)

/-- `OpenAIProvider.generate`: one backend call per attempt, wrapped in
`_retry_generate`. -/
def OpenAIProvider_generate (fn : Nat → Except CallErr String) : CallTrace :=
  retry_generate fn

/-- `AnthropicProvider.generate`: one backend call per attempt, wrapped in
`_retry_generate`. -/
def AnthropicProvider_generate (fn : Nat → Except CallErr String) : CallTrace :=
  retry_generate fn

/-- `OllamaProvider.generate` (src/providers.py lines 115–128): a single
backend call with no retry wrapper; every error surfaces immediately. -/
def OllamaProvider_generate (fn : Nat → Except CallErr String) : CallTrace :=
  ⟨fn 0, [], 1⟩

/-! ## Request orchestration — src/server.py -/

/-- Maximum request body size: 1 MiB (src/server.py line 37). -/
def MAX_REQUEST_BODY : Nat := 1 * 1024 * 1024

/-- The JSON body of a verify call. -/
structure WebhookRequest where
  tool : String
  params : List (String × PyValue)
  agent : Option String := none
  session : Option String := none
  policy : Option String := none
  timestamp : Option String := none
  task_context : Option String := none

/-- The response of a verify call. -/
structure VerificationResponse where
  decision : String
  reason : Option String
  timestamp : String
  model : String

/-- One record of the append-only decision log (`log_decision`,
src/server.py lines 144–163). -/
structure AuditEntry where
  timestamp : String
  tool : String
  params : List (String × PyValue)
  agent : Option String
  session : Option String
  task_context : Option String
  decision : String
  reason : Option String
  model : String
  latency_ms : ℚ

/-- The audit entry built by `log_decision` from a request/response pair:
note that `params` is stored exactly as received. -/
def log_decision_entry (request : WebhookRequest) (response : VerificationResponse)
    (latency_ms : ℚ) : AuditEntry :=
  { timestamp := response.timestamp
    tool := request.tool
    params := request.params
    agent := request.agent
    session := request.session
    task_context := request.task_context
    decision := response.decision
    reason := response.reason
    model := response.model
    latency_ms := latency_ms }

/-- In-memory metrics increments contributed by one request. -/
structure Metrics where
  requests : Nat
  allows : Nat
  denies : Nat
  errors : Nat
  deriving DecidableEq

/-- Outcome of one HTTP request: a non-200 failure or a 200 verdict. -/
inductive VerifyResult where
  | httpError (status : Nat) (detail : String)
  | ok (resp : VerificationResponse)

/-- Full effect of one request through `verify_action`: the HTTP outcome, the
number of times `log_decision` was invoked, the audit entries actually
persisted (the append may fail), and the metrics increments. -/
structure VerifyOutcome where
  result : VerifyResult
  logCalls : Nat
  logged : List AuditEntry
  metrics : Metrics

/-- `verify_action` (src/server.py lines 193–252) as a pure function of its
environment: `admitted` is the rate limiter's verdict, `generate` the
provider's behaviour on the built prompt, `parse` the response parser
(modelled fallibly so that parser exceptions are represented), `auditOk`
whether the audit append succeeds, `now` the completion timestamp and
`latency` the measured latency.  The `try` block covers provider selection,
prompt construction, generation, parsing, logging and metering; any exception
is converted into the fail-open ALLOW response. -/
def verify_action (request : WebhookRequest) (model now : String) (latency : ℚ)
    (rateLimit : Int) (admitted : Bool)
    (generate : String → Except Unit String)
    (parse : String → Except Unit (String × Option String))
    (auditOk : Bool) : VerifyOutcome :=
  if admitted = false then
    { result := .httpError 429
        ("Rate limit exceeded: max " ++ toString rateLimit ++ " requests per minute")
      logCalls := 0
      logged := []
      metrics := ⟨1, 0, 0, 0⟩ }
  else
    let prompt := create_verification_prompt request.tool request.params request.task_context
    match (generate prompt).bind parse with
    | .ok (decision, reason) =>
      let resp : VerificationResponse :=
        { decision := decision, reason := reason, timestamp := now, model := model }
      { result := .ok resp
        logCalls := 1
        logged := if auditOk then [log_decision_entry request resp latency] else []
        metrics := ⟨1, if decision = "allow" then 1 else 0,
                    if decision = "deny" then 1 else 0, 0⟩ }
    | .error _ =>
      let resp : VerificationResponse :=
        { decision := "allow"
          reason := some "Verification unavailable, allowing by default"
          timestamp := now, model := model }
      { result := .ok resp
        logCalls := 1
        logged := if auditOk then [log_decision_entry request resp latency] else []
        metrics := ⟨1, 1, 0, 1⟩ }

/-- The body-size middleware (`limit_request_body`, src/server.py lines
47–53): `true` when the request is rejected with 413. -/
def limit_request_body (contentLength : Option Nat) : Bool :=
  match contentLength with
  | some n => n > MAX_REQUEST_BODY
  | none => false

/-- One request through the middleware and `verify_action`. -/
def handle_request (contentLength : Option Nat) (request : WebhookRequest)
    (model now : String) (latency : ℚ) (rateLimit : Int) (admitted : Bool)
    (generate : String → Except Unit String)
    (parse : String → Except Unit (String × Option String))
    (auditOk : Bool) : VerifyOutcome :=
  if limit_request_body contentLength then
    { result := .httpError 413 "Request body too large"
      logCalls := 0, logged := [], metrics := ⟨0, 0, 0, 0⟩ }
  else
    verify_action request model now latency rateLimit admitted generate parse auditOk

/-- The infallible parser actually installed in the service: exceptions from
`parse_llm_response` would be caught by the orchestrator, but the parser is
total. -/
def parseTotal (raw : String) : Except Unit (String × Option String) :=
  .ok (parse_llm_response raw)

/-! ## Theorems -/

/-- The parser loop returns the first signal among non-blank lines. -/
theorem parseLines_eq (ls : List String) :
    parseLines ls = ((ls.filter (fun l => l ≠ "")).findSome? parseLine).getD ("allow", none) := by
  induction ls with
  | nil => rfl
  | cons l ls ih =>
    by_cases h : l = ""
    · subst h
      simpa [parseLines] using ih
    · rw [parseLines, if_neg h]
      cases hp : parseLine l with
      | some r => simp [List.filter_cons, h, List.findSome?_cons, hp]
      | none => simp [List.filter_cons, h, List.findSome?_cons, hp, ih]

/-- Claim C3: `parse_llm_response` scans non-blank lines in order and returns
on the first line carrying a signal, with within-line priority exact
case-insensitive "ALLOW" > line beginning with "DENY" (reason from the first
colon split, default reason without a colon) > contains "ALLOW" without
"DENY" > contains "DENY"; with no signal the result is `(allow, none)`.
Stated as extensional equality with the specification-side parser transcribed
from the claim, together with the four concrete behaviours named in the
spec. -/
theorem parse_llm_response_correct :
    (∀ r : String, parse_llm_response r = parseSpec r) ∧
    parse_llm_response "ALLOW" = ("allow", none) ∧
    parse_llm_response "DENY: reason text" = ("deny", some "reason text") ∧
    parse_llm_response "I could not classify this input" = ("allow", none) ∧
    parse_llm_response "Decision: ALLOW\nDENY: ignored later line" = ("allow", none) := by
  refine ⟨fun r => ?_, by decide, by decide, by decide, by decide⟩
  rw [parse_llm_response, parseSpec, parseLines_eq]
  cases ((splitOnChar '\n' (stripL r.data)).map
      (fun l => String.mk (stripL l))).filter (fun l => l ≠ "") |>.findSome? parseLine <;> rfl

/-- Claim C10: parsing the requests-per-minute budget is total and always
positive: every environment value yields a positive limit, with fallback 60
both on unparseable input and on non-positive parses, and the parsed value
itself when positive. -/
theorem parse_rate_limit_total_positive :
    ∀ env : Option String,
      0 < parse_rate_limit env ∧
      (pyIntParse (env.getD "60") = none → parse_rate_limit env = 60) ∧
      (∀ v : Int, pyIntParse (env.getD "60") = some v → v ≤ 0 → parse_rate_limit env = 60) ∧
      (∀ v : Int, pyIntParse (env.getD "60") = some v → 0 < v → parse_rate_limit env = v) := by
  intro env
  cases hp : pyIntParse (env.getD "60") with
  | none =>
    simp only [parse_rate_limit, hp]
    refine ⟨by norm_num, ?_, ?_, ?_⟩ <;> intros <;> simp_all
  | some v =>
    simp only [parse_rate_limit, hp]
    by_cases hpos : v > 0
    · refine ⟨by simp [hpos, hpos], by simp, fun w hw hle => ?_, fun w hw _ => ?_⟩
      · obtain rfl : v = w := Option.some.inj hw
        omega
      · obtain rfl : v = w := Option.some.inj hw
        simp [hpos]
    · refine ⟨by simp [hpos], by simp, fun w hw _ => ?_, fun w hw hwpos => ?_⟩
      · obtain rfl : v = w := Option.some.inj hw
        simp [hpos]
      · obtain rfl : v = w := Option.some.inj hw
        omega

/-- Witness for C10 at concrete inputs: an unparseable value and a
non-positive value both fall back to 60. -/
theorem parse_rate_limit_witness :
    parse_rate_limit (some "not a number") = 60 ∧ parse_rate_limit (some "-5") = 60 :=
  ⟨(parse_rate_limit_total_positive (some "not a number")).2.1 (by decide),
   (parse_rate_limit_total_positive (some "-5")).2.2.1 (-5) (by decide) (by norm_num)⟩

/-- Helper: `k` consecutive admission checks at the bucket's own last-refill
instant all succeed when at least `k` tokens are available (and the bucket is
within capacity), consuming exactly one token each. -/
theorem TokenBucket.run_const_time (k : ℕ) :
    ∀ b : TokenBucket, ∀ t : ℚ, b.last_refill = t → b.tokens ≤ b.capacity →
      (k : ℚ) ≤ b.tokens →
      (b.run (List.replicate k t)).1 = List.replicate k true ∧
      (b.run (List.replicate k t)).2 =
        ⟨b.capacity, b.refill_per_second, b.tokens - k, t⟩ := by
  induction k with
  | zero =>
    intro b t hlast hcap _
    refine ⟨rfl, ?_⟩
    simp only [List.replicate, TokenBucket.run]
    cases b
    simp_all
  | succ k ih =>
    intro b t hlast hcap htok
    have hone : (1 : ℚ) ≤ b.tokens := le_trans (by push_cast; linarith [Nat.cast_nonneg (α := ℚ) k]) htok
    have hrefill : pymin b.capacity (b.tokens + (t - b.last_refill) * b.refill_per_second) = b.tokens := by
      rw [hlast]
      simp only [sub_self, zero_mul, add_zero, pymin]
      split <;> [rfl; linarith]
    have hallow : b.allow t =
        (true, ⟨b.capacity, b.refill_per_second, b.tokens - 1, t⟩) := by
      rw [TokenBucket.allow]
      simp only [hrefill]
      rw [if_neg (by linarith)]
    rw [List.replicate_succ, TokenBucket.run, hallow]
    have hstep := ih ⟨b.capacity, b.refill_per_second, b.tokens - 1, t⟩ t rfl
      (by simp; linarith) (by push_cast at htok ⊢; linarith)
    refine ⟨?_, ?_⟩
    · simp only [List.replicate_succ]
      rw [hstep.1]
    · rw [hstep.2]
      congr 1
      push_cast
      ring

/-- Claim C4: the token-bucket `allow` transition refills by elapsed time
times rate capped at capacity, updates the last-refill instant, rejects
without consuming below one token and otherwise consumes exactly one; with
capacity 60 and refill rate 1/s, starting full, 60 consecutive immediate
admission checks succeed, the 61st fails, and after one further second
exactly one more admission succeeds. -/
theorem token_bucket_correct :
    (∀ (b : TokenBucket) (now : ℚ),
      b.allow now =
        (let t := pymin b.capacity (b.tokens + (now - b.last_refill) * b.refill_per_second)
         if t < 1 then (false, ⟨b.capacity, b.refill_per_second, t, now⟩)
         else (true, ⟨b.capacity, b.refill_per_second, t - 1, now⟩))) ∧
    (((TokenBucket.init 60 1 0).run (List.replicate 60 0)).1 = List.replicate 60 true) ∧
    ((((TokenBucket.init 60 1 0).run (List.replicate 60 0)).2.allow 0).1 = false) ∧
    (((((TokenBucket.init 60 1 0).run (List.replicate 60 0)).2.allow 0).2.allow 1).1 = true) ∧
    ((((((TokenBucket.init 60 1 0).run (List.replicate 60 0)).2.allow 0).2.allow 1).2.allow 1).1 = false) := by
  have hrun := TokenBucket.run_const_time 60 (TokenBucket.init 60 1 0) 0 rfl
    (le_refl _) (by norm_num [TokenBucket.init])
  have hdrained : ((TokenBucket.init 60 1 0).run (List.replicate 60 0)).2 =
      ⟨60, 1, 0, 0⟩ := by
    rw [hrun.2]
    norm_num [TokenBucket.init]
  have hstep : ∀ b : TokenBucket, b.allow = fun now =>
      (let t := pymin b.capacity (b.tokens + (now - b.last_refill) * b.refill_per_second)
       if t < 1 then (false, ⟨b.capacity, b.refill_per_second, t, now⟩)
       else (true, ⟨b.capacity, b.refill_per_second, t - 1, now⟩)) := by
    intro b
    funext now
    rw [TokenBucket.allow]
  have h61 : (⟨60, 1, 0, 0⟩ : TokenBucket).allow 0 = (false, ⟨60, 1, 0, 0⟩) := by
    rw [TokenBucket.allow]
    norm_num [pymin]
  have h62 : (⟨60, 1, 0, 0⟩ : TokenBucket).allow 1 = (true, ⟨60, 1, 0, 1⟩) := by
    rw [TokenBucket.allow]
    norm_num [pymin]
  have h63 : (⟨60, 1, 0, 1⟩ : TokenBucket).allow 1 = (false, ⟨60, 1, 0, 1⟩) := by
    rw [TokenBucket.allow]
    norm_num [pymin]
  refine ⟨fun b now => by rw [hstep b], hrun.1, ?_, ?_, ?_⟩
  · rw [hdrained, h61]
  · rw [hdrained, h61, h62]
  · rw [hdrained, h61, h62, h63]

/-- Claim C5 counterexample: the self-hosted Ollama variant performs no
retries at all — on a persistent backend rate-limit signal it issues exactly
one call, sleeps never, and surfaces the error, rather than making the
`MAX_RETRIES + 1` calls the claim requires of every variant. -/
theorem ollama_no_retry_counterexample :
    (OllamaProvider_generate (fun _ => Except.error (CallErr.http 429))).calls = 1 ∧
    (OllamaProvider_generate (fun _ => Except.error (CallErr.http 429))).delays = [] ∧
    ¬ (OllamaProvider_generate (fun _ => Except.error (CallErr.http 429))).calls
        = MAX_RETRIES + 1 :=
  ⟨rfl, rfl, by decide⟩

/-- Claim C5 (amended): the hosted variants (OpenAI-compatible and Anthropic)
retry a backend 429 up to `MAX_RETRIES = 2` times with linearly increasing
delay `RETRY_DELAY × attempt` before surfacing it, surface timeouts and all
other errors immediately without retry; the self-hosted Ollama variant
performs no retries, surfacing every backend outcome immediately. -/
theorem provider_retry_behaviour :
    (∀ fn : Nat → Except CallErr String, (∀ n, fn n = .error (.http 429)) →
      OpenAIProvider_generate fn =
        ⟨.error (.http 429), [RETRY_DELAY * 1, RETRY_DELAY * 2], MAX_RETRIES + 1⟩ ∧
      AnthropicProvider_generate fn =
        ⟨.error (.http 429), [RETRY_DELAY * 1, RETRY_DELAY * 2], MAX_RETRIES + 1⟩) ∧
    (∀ fn : Nat → Except CallErr String, fn 0 = .error .timeout →
      OpenAIProvider_generate fn = ⟨.error .timeout, [], 1⟩ ∧
      AnthropicProvider_generate fn = ⟨.error .timeout, [], 1⟩) ∧
    (∀ fn : Nat → Except CallErr String, fn 0 = .error .other →
      OpenAIProvider_generate fn = ⟨.error .other, [], 1⟩ ∧
      AnthropicProvider_generate fn = ⟨.error .other, [], 1⟩) ∧
    (∀ (fn : Nat → Except CallErr String) (s : Nat), s ≠ 429 →
      fn 0 = .error (.http s) →
      OpenAIProvider_generate fn = ⟨.error (.http s), [], 1⟩ ∧
      AnthropicProvider_generate fn = ⟨.error (.http s), [], 1⟩) ∧
    (∀ fn : Nat → Except CallErr String, OllamaProvider_generate fn = ⟨fn 0, [], 1⟩) := by
  have h429 : ∀ fn : Nat → Except CallErr String, (∀ n, fn n = .error (.http 429)) →
      retry_generate fn =
        ⟨.error (.http 429), [RETRY_DELAY * 1, RETRY_DELAY * 2], MAX_RETRIES + 1⟩ := by
    intro fn h
    simp only [retry_generate, retryAux, h 0, h 1, h 2, MAX_RETRIES]
    norm_num
  have htimeout : ∀ fn : Nat → Except CallErr String, fn 0 = .error .timeout →
      retry_generate fn = ⟨.error .timeout, [], 1⟩ := by
    intro fn h
    simp [retry_generate, retryAux, h]
  have hother : ∀ fn : Nat → Except CallErr String, fn 0 = .error .other →
      retry_generate fn = ⟨.error .other, [], 1⟩ := by
    intro fn h
    simp [retry_generate, retryAux, h]
  have hhttp : ∀ (fn : Nat → Except CallErr String) (s : Nat), s ≠ 429 →
      fn 0 = .error (.http s) → retry_generate fn = ⟨.error (.http s), [], 1⟩ := by
    intro fn s hs h
    simp [retry_generate, retryAux, h, hs]
  exact ⟨fun fn h => ⟨h429 fn h, h429 fn h⟩,
         fun fn h => ⟨htimeout fn h, htimeout fn h⟩,
         fun fn h => ⟨hother fn h, hother fn h⟩,
         fun fn s hs h => ⟨hhttp fn s hs h, hhttp fn s hs h⟩,
         fun fn => rfl⟩

/-- Witness for C5's amended theorem at concrete backends: a persistently
rate-limited backend is retried twice by the hosted variant; a timing-out
backend is surfaced after a single call. -/
theorem provider_retry_behaviour_witness :
    OpenAIProvider_generate (fun _ => Except.error (CallErr.http 429)) =
      ⟨.error (.http 429), [RETRY_DELAY * 1, RETRY_DELAY * 2], MAX_RETRIES + 1⟩ ∧
    AnthropicProvider_generate (fun _ => Except.error CallErr.timeout) =
      ⟨.error .timeout, [], 1⟩ :=
  ⟨(provider_retry_behaviour.1 (fun _ => Except.error (CallErr.http 429)) (fun _ => rfl)).1,
   (provider_retry_behaviour.2.1 (fun _ => Except.error CallErr.timeout) rfl).2⟩

/-- The fail-open response produced when provider or parser raise. -/
def failOpenReason : String := "Verification unavailable, allowing by default"

/-- Claim C2: once admitted past the rate limiter, a provider exception or a
parser exception is converted into a synthetic ALLOW verdict whose fixed
reason mentions unavailability, returned as a normal 200 response and metered
additionally as an error; a rate-limited request surfaces as a 429 and an
oversized request as a 413, and those are the only non-200 outcomes. -/
theorem verify_action_fail_open :
    (∀ (req : WebhookRequest) (model now : String) (latency : ℚ) (rl : Int)
       (parse : String → Except Unit (String × Option String)) (auditOk : Bool),
      (verify_action req model now latency rl true (fun _ => .error ()) parse auditOk).result =
        .ok ⟨"allow", some failOpenReason, now, model⟩ ∧
      (verify_action req model now latency rl true (fun _ => .error ()) parse auditOk).metrics =
        ⟨1, 1, 0, 1⟩) ∧
    (∀ (req : WebhookRequest) (model now : String) (latency : ℚ) (rl : Int)
       (gen : String → Except Unit String) (auditOk : Bool),
      (verify_action req model now latency rl true gen (fun _ => .error ()) auditOk).result =
        .ok ⟨"allow", some failOpenReason, now, model⟩ ∧
      (verify_action req model now latency rl true gen (fun _ => .error ()) auditOk).metrics =
        ⟨1, 1, 0, 1⟩) ∧
    strContains failOpenReason "unavailable" = true ∧
    (∀ (req : WebhookRequest) (model now : String) (latency : ℚ) (rl : Int)
       (gen : String → Except Unit String)
       (parse : String → Except Unit (String × Option String)) (auditOk : Bool),
      (verify_action req model now latency rl false gen parse auditOk).result =
        .httpError 429 ("Rate limit exceeded: max " ++ toString rl ++ " requests per minute")) ∧
    (∀ (contentLength : Option Nat) (req : WebhookRequest) (model now : String)
       (latency : ℚ) (rl : Int) (admitted : Bool)
       (gen : String → Except Unit String)
       (parse : String → Except Unit (String × Option String)) (auditOk : Bool)
       (status : Nat) (detail : String),
      (handle_request contentLength req model now latency rl admitted gen parse
          auditOk).result = .httpError status detail →
      status = 429 ∨ status = 413) := by
  refine ⟨?_, ?_, by decide, ?_, ?_⟩
  · intro req model now latency rl parse auditOk
    exact ⟨rfl, rfl⟩
  · intro req model now latency rl gen auditOk
    cases hg : gen (create_verification_prompt req.tool req.params req.task_context) with
    | ok raw =>
      exact ⟨by simp [verify_action, hg, Except.bind, failOpenReason],
             by simp [verify_action, hg, Except.bind]⟩
    | error e =>
      exact ⟨by simp [verify_action, hg, Except.bind, failOpenReason],
             by simp [verify_action, hg, Except.bind]⟩
  · intro req model now latency rl gen parse auditOk
    rfl
  · intro cl req model now latency rl admitted gen parse auditOk status detail h
    simp only [handle_request, verify_action] at h
    split at h
    · right
      have h2 : VerifyResult.httpError 413 "Request body too large" =
          VerifyResult.httpError status detail := h
      injection h2 with h3 _
      omega
    · split at h
      · left
        have h2 : VerifyResult.httpError 429
            ("Rate limit exceeded: max " ++ toString rl ++ " requests per minute") =
            VerifyResult.httpError status detail := h
        injection h2 with h3 _
        omega
      · split at h <;> simp at h

/-- A concrete request used by the closed witnesses. -/
def sampleRequest : WebhookRequest :=
  { tool := "exec", params := [("command", PyValue.str "ls -la")] }

/-- Witness for C2 at a concrete input: an oversized request surfaces as a
non-200 status that is 429 or 413. -/
theorem verify_action_fail_open_witness :
    (413 : Nat) = 429 ∨ (413 : Nat) = 413 :=
  verify_action_fail_open.2.2.2.2 (some (MAX_REQUEST_BODY + 1)) sampleRequest
    "gpt-4o-mini" "t0" 1 60 true (fun _ => .error ()) (fun _ => .error ()) true
    413 "Request body too large" rfl

/-- Claim C6: every admitted request — real verdict or fail-open — invokes
the audit append exactly once (a rate-limited rejection invokes it zero
times); a successful append persists exactly one entry, a failed append
persists none, and audit failure never changes the response. -/
theorem audit_exactly_once :
    ∀ (req : WebhookRequest) (model now : String) (latency : ℚ) (rl : Int)
      (gen : String → Except Unit String)
      (parse : String → Except Unit (String × Option String)),
      (verify_action req model now latency rl true gen parse true).logCalls = 1 ∧
      (verify_action req model now latency rl true gen parse false).logCalls = 1 ∧
      (∀ auditOk, (verify_action req model now latency rl false gen parse auditOk).logCalls = 0) ∧
      (verify_action req model now latency rl true gen parse true).logged.length = 1 ∧
      (verify_action req model now latency rl true gen parse false).logged.length = 0 ∧
      (∀ auditOk, (verify_action req model now latency rl true gen parse auditOk).result =
        (verify_action req model now latency rl true gen parse true).result) := by
  intro req model now latency rl gen parse
  cases hb : (gen (create_verification_prompt req.tool req.params req.task_context)).bind parse with
  | ok v =>
    refine ⟨?_, ?_, fun auditOk => rfl, ?_, ?_, fun auditOk => ?_⟩ <;>
      simp [verify_action, hb]
  | error e =>
    refine ⟨?_, ?_, fun auditOk => rfl, ?_, ?_, fun auditOk => ?_⟩ <;>
      simp [verify_action, hb]

/-- Lookup in a mapping whose values were transformed pointwise. -/
theorem lookup_map_value (f : PyValue → PyValue) (params : List (String × PyValue)) (k : String) :
    (params.map fun kv => (kv.1, f kv.2)).lookup k = (params.lookup k).map f := by
  induction params with
  | nil => rfl
  | cons kv rest ih =>
    cases hk : k == kv.1 <;> simp [List.lookup, hk, ih]

/-- Claim C8: `redact_params` returns a fresh mapping with the same keys in
which every top-level string value is redacted, every string value of a
one-level nested mapping is redacted, and every non-string value passes
through unchanged; the input mapping is left untouched (the embedding is
pure, so the per-key relation below is the full content of the frame
condition). -/
theorem redact_params_correct :
    ∀ params : List (String × PyValue),
      ((redact_params params).map Prod.fst = params.map Prod.fst) ∧
      (∀ k, (redact_params params).lookup k = (params.lookup k).map redactValue) ∧
      (∀ s, redactValue (.str s) = .str (redact_secrets s)) ∧
      (∀ n, redactValue (.int n) = .int n) ∧
      (∀ b, redactValue (.bool b) = .bool b) ∧
      (redactValue .pynone = .pynone) ∧
      (∀ d, redactValue (.dict d) = .dict (d.map fun kv => (kv.1, redactNested kv.2))) ∧
      (∀ s, redactNested (.str s) = .str (redact_secrets s)) ∧
      (∀ n, redactNested (.int n) = .int n) ∧
      (∀ b, redactNested (.bool b) = .bool b) ∧
      (redactNested .pynone = .pynone) ∧
      (∀ d, redactNested (.dict d) = .dict d) := by
  intro params
  refine ⟨?_, fun k => lookup_map_value redactValue params k,
    fun s => rfl, fun n => rfl, fun b => rfl, rfl,
    fun d => rfl, fun s => rfl, fun n => rfl, fun b => rfl, rfl, fun d => rfl⟩
  simp [redact_params]

/-- An adversarially long command (300 characters). -/
def bigCmd : String := String.mk (List.replicate 300 'a')

/-- Claim C9 counterexample: for the execution branch the command text is
interpolated in full, so a 300-character command produces a prompt whose
length exceeds the 200-character budget plus all template text — the prompt
is not bounded for every input. -/
theorem prompt_unbounded_counterexample :
    create_verification_prompt "exec" [("command", PyValue.str bigCmd)] none =
      "COMMAND TO REVIEW:\nShell command: " ++ bigCmd ∧
    234 < (create_verification_prompt "exec" [("command", PyValue.str bigCmd)] none).length := by
  constructor
  · rfl
  · have h : create_verification_prompt "exec" [("command", PyValue.str bigCmd)] none =
        "COMMAND TO REVIEW:\nShell command: " ++ bigCmd := rfl
    rw [h, String.length_append]
    have hlen : bigCmd.length = 300 := by
      simp [bigCmd, String.length]
    omega

set_option maxRecDepth 16384 in
/-- Claim C9 (amended): the branch structure of `create_verification_prompt`.
For execution tools the command text, for file tools the path, and for fetch
tools the URL are interpolated in full (unbounded); only the generic branch
truncates the parameter dump to 200 characters, so only there is the prompt
length bounded (by the fixed template plus the tool name plus 200). -/
theorem prompt_branches :
    (∀ (params : List (String × PyValue)) (cmd : String),
      params.lookup "command" = some (.str cmd) →
      create_verification_prompt "exec" params none =
        "COMMAND TO REVIEW:\nShell command: " ++ cmd) ∧
    (∀ (params : List (String × PyValue)) (path tool : String),
      (tool = "read" ∨ tool = "write") →
      params.lookup "path" = some (.str path) →
      create_verification_prompt tool params none =
        "COMMAND TO REVIEW:\nFile " ++ tool ++ ": " ++ path) ∧
    (∀ (params : List (String × PyValue)) (url tool : String),
      (tool = "fetch" ∨ tool = "web_fetch") →
      params.lookup "url" = some (.str url) →
      create_verification_prompt tool params none =
        "COMMAND TO REVIEW:\nHTTP request: " ++ url) ∧
    (∀ (tool : String) (params : List (String × PyValue)),
      tool ≠ "exec" → tool ≠ "read" → tool ≠ "write" → tool ≠ "fetch" → tool ≠ "web_fetch" →
      (create_verification_prompt tool params none).length ≤ 228 + tool.length) := by
  refine ⟨?_, ?_, ?_, ?_⟩
  · intro params cmd h
    have hget : pyGet params "command" (pyGet params "command_b64" (PyValue.str "unknown")) =
        PyValue.str cmd := by
      rw [pyGet, h]
    simp only [create_verification_prompt, hget, pyStr]
    rfl
  · intro params path tool htool h
    have hget : pyGet params "path" (pyGet params "file_path" (PyValue.str "unknown")) =
        PyValue.str path := by
      rw [pyGet, h]
    rcases htool with rfl | rfl <;>
    · simp only [create_verification_prompt, hget, pyStr]
      rfl
  · intro params url tool htool h
    have hget : pyGet params "url" (pyGet params "targetUrl" (PyValue.str "unknown")) =
        PyValue.str url := by
      rw [pyGet, h]
    rcases htool with rfl | rfl <;>
    · simp only [create_verification_prompt, hget, pyStr]
      rfl
  · intro tool params h1 h2 h3 h4 h5
    have hinfo : create_verification_prompt tool params none =
        "COMMAND TO REVIEW:\n" ++ ("Tool \x27" ++ tool ++ "\x27: " ++
          String.mk ((pyRepr (PyValue.dict params)).data.take 200)) := by
      simp only [create_verification_prompt]
      rw [if_neg h1,
        if_neg (show ¬((tool = "read" || tool = "write") = true) by simp [h2, h3]),
        if_neg (show ¬((tool = "fetch" || tool = "web_fetch") = true) by simp [h4, h5])]
    rw [hinfo]
    have ht : (String.mk ((pyRepr (PyValue.dict params)).data.take 200)).length ≤ 200 := by
      have hl : (String.mk ((pyRepr (PyValue.dict params)).data.take 200)).length
          = ((pyRepr (PyValue.dict params)).data.take 200).length := rfl
      rw [hl]
      exact List.length_take_le _ _
    simp only [String.length_append]
    have h6 : ("COMMAND TO REVIEW:\n" : String).length = 19 := by decide
    have h7 : ("Tool \x27" : String).length = 6 := by decide
    have h8 : ("\x27: " : String).length = 3 := by decide
    omega

/-- Witness for C9's amended theorem at concrete inputs: the exec branch
embeds the command text; a generic-tool prompt respects the length bound. -/
theorem prompt_branches_witness :
    create_verification_prompt "exec" [("command", PyValue.str "git push origin main")] none =
      "COMMAND TO REVIEW:\nShell command: " ++ "git push origin main" ∧
    (create_verification_prompt "browser" [("targetUrl", PyValue.str "https://github.com")] none).length ≤
      228 + ("browser" : String).length :=
  ⟨prompt_branches.1 [("command", PyValue.str "git push origin main")] "git push origin main" rfl,
   prompt_branches.2.2.2 "browser" [("targetUrl", PyValue.str "https://github.com")]
     (by decide) (by decide) (by decide) (by decide) (by decide)⟩

/-- The failing input for C1: a shell command that embeds an AWS access key
identifier, a secret-shaped value matched by the first redaction rule. -/
def awsCmd : String := "env AWS_ACCESS_KEY_ID=AKIA0123456789ABCDEF aws s3 ls"

/-- The C1 failing request. -/
def awsReq : WebhookRequest :=
  { tool := "exec", params := [("command", PyValue.str awsCmd)] }

/-- Claim C1, evaluated at the failing input: the prompt returned by
`create_verification_prompt` contains the raw secret-shaped substring even
though the Redactor would have removed it (`redact_secrets` changes the
command and eliminates the key), and the audit entry built by `log_decision`
stores `params` exactly as received, unredacted.  Neither src/prompt.py nor
src/server.py ever invokes the redaction module. -/
theorem secret_leak_at_failing_input :
    strContains (create_verification_prompt awsReq.tool awsReq.params awsReq.task_context)
      "AKIA0123456789ABCDEF" = true ∧
    redact_secrets awsCmd ≠ awsCmd ∧
    strContains (redact_secrets awsCmd) "AKIA0123456789ABCDEF" = false ∧
    (∀ (resp : VerificationResponse) (latency : ℚ),
      (log_decision_entry awsReq resp latency).params = awsReq.params) := by
  refine ⟨by decide, by decide, by decide, fun resp latency => rfl⟩

/-- An input on which redaction is not idempotent: inside a `-H` header the
greedy `[^"\x27]*` of the base64-header rule prefers the last colon, so the
first application consumes the earlier base64 run into the preserved prefix;
the second application then re-matches at the earlier colon. -/
def nonIdem : String :=
  "-H \"x:" ++ String.mk (List.replicate 40 'A') ++ ":" ++ String.mk (List.replicate 40 'B')

/-- Claim C7 counterexample: `redact_secrets` is not idempotent.  At the
explicit input `-H "x:AAA…A:BBB…B` (40 As, 40 Bs) the first application
redacts only the run after the last colon, while the second application
additionally redacts the run after the first colon — the base64-header rule's
replacement does re-enable a match of that same rule. -/
theorem redact_not_idempotent_counterexample :
    redact_secrets (redact_secrets nonIdem) ≠ redact_secrets nonIdem ∧
    redact_secrets nonIdem =
      "-H \"x:" ++ String.mk (List.replicate 40 'A') ++ ":[REDACTED_B64]" ∧
    redact_secrets (redact_secrets nonIdem) = "-H \"x:[REDACTED_B64]:[REDACTED_B64]" :=
  ⟨by decide, by decide, by decide⟩

/-- Claim C7 (amended): redaction is not idempotent for every input — a
second application can redact strictly more when the base64-header rule
re-matches inside its own preserved prefix; idempotence does hold on every
text that redaction leaves unchanged (in particular on all secret-free
texts). -/
theorem redact_idempotent_on_fixed_points :
    ∀ x : String, redact_secrets x = x →
      redact_secrets (redact_secrets x) = redact_secrets x := by
  intro x h
  simp only [h]

/-- Witness for C7's amended theorem at a concrete secret-free input. -/
theorem redact_idempotent_on_fixed_points_witness :
    redact_secrets (redact_secrets "git push origin main") =
      redact_secrets "git push origin main" :=
  redact_idempotent_on_fixed_points "git push origin main" (by decide)

end Rampart
